
import Mathlib
/-!
Verification development for the event-driven messaging backbone of the
fastapi-micro repository: the domain event model and registry
(src/shared/events.py), the Kafka event bus (src/shared/kafka_client.py),
and the notification state machine
(src/services/notification/domain/entities.py, services.py).

The Python code is shallowly embedded: dataclasses become structures,
mutating methods become state-passing functions, raised exceptions become
explicit error values, and the standard-library string conversions used by
the serializer (str on a UUID, datetime.isoformat and
datetime.fromisoformat, int parsing inside the UUID constructor) are
modelled as executable printers and parsers over lists of characters.
-/
/-! ## Fixed-width positional printing and parsing

Models the decimal and hexadecimal text produced and consumed by the
Python standard library: zero-padded fixed-width decimal fields inside
datetime.isoformat output, and the 32 hex digits of a canonical UUID
string.  A value n with n < b ^ w prints as exactly w base-b digits,
most significant first. -/
/-- Print n as exactly w base-b digits (most significant first), using pr
to render a single digit. -/
def padBase (b : Nat) (pr : Nat → Char) : Nat → Nat → List Char
  | 0, _ => []
  | w + 1, n => pr (n / b ^ w) :: padBase b pr w (n % b ^ w)
/-- Read exactly w base-b digits from the front of a character list, using
pv to recognise a single digit; returns the accumulated value and the
remaining characters, or none if a non-digit or end of input is hit. -/
def readBase (b : Nat) (pv : Char → Option Nat) : Nat → Nat → List Char → Option (Nat × List Char)
  | 0, acc, cs => some (acc, cs)
  | _ + 1, _, [] => none
  | w + 1, acc, c :: cs =>
    match pv c with
    | some d => readBase b pv w (b * acc + d) cs
    | none => none
/-! ## Digit codecs

Decimal digits as emitted by zero-padded formatting and read back by
datetime.fromisoformat, and hexadecimal digits as emitted by the
lowercase hex formatting of a UUID and read back by int(s, 16) inside
the UUID constructor. -/
/-- Render one decimal digit. -/
def decDigitChar (d : Nat) : Char := Char.ofNat (48 + d)
/-- Recognise one decimal digit. -/
def decDigitVal (c : Char) : Option Nat :=
  if '0' ≤ c ∧ c ≤ '9' then some (c.toNat - 48) else none
/-- Render one lowercase hexadecimal digit. -/
def hexDigitChar (d : Nat) : Char :=
  if d < 10 then Char.ofNat (48 + d) else Char.ofNat (87 + d)
/-- Recognise one hexadecimal digit (int(s, 16) accepts both cases). -/
def hexDigitVal (c : Char) : Option Nat :=
  if '0' ≤ c ∧ c ≤ '9' then some (c.toNat - 48)
  else if 'a' ≤ c ∧ c ≤ 'f' then some (c.toNat - 87)
  else if 'A' ≤ c ∧ c ≤ 'F' then some (c.toNat - 55)
  else none
/-! ## Datetime

Embeds the naive datetime values produced by datetime.utcnow and carried
in DomainEvent.occurred_on and the Notification timestamps.  valid captures
the range invariants the Python datetime constructor enforces. -/
structure Datetime where
  year : Nat
  month : Nat
  day : Nat
  hour : Nat
  minute : Nat
  second : Nat
  microsecond : Nat
deriving DecidableEq
/-- Range invariants of a Python datetime value. -/
def Datetime.valid (t : Datetime) : Prop :=
  1 ≤ t.year ∧ t.year ≤ 9999 ∧ 1 ≤ t.month ∧ t.month ≤ 12 ∧ 1 ≤ t.day ∧ t.day ≤ 31 ∧
    t.hour ≤ 23 ∧ t.minute ≤ 59 ∧ t.second ≤ 59 ∧ t.microsecond ≤ 999999
instance (t : Datetime) : Decidable t.valid := by
  unfold Datetime.valid
  infer_instance
/-- datetime.isoformat on a naive value: YYYY-MM-DDTHH:MM:SS, with a
.ffffff microsecond suffix exactly when microsecond is nonzero. -/
def Datetime.isoChars (t : Datetime) : List Char :=
  padBase 10 decDigitChar 4 t.year ++ '-' ::
    (padBase 10 decDigitChar 2 t.month ++ '-' ::
      (padBase 10 decDigitChar 2 t.day ++ 'T' ::
        (padBase 10 decDigitChar 2 t.hour ++ ':' ::
          (padBase 10 decDigitChar 2 t.minute ++ ':' ::
            (padBase 10 decDigitChar 2 t.second ++
              (if t.microsecond = 0 then []
               else '.' :: padBase 10 decDigitChar 6 t.microsecond))))))
/-- The isoformat string of a datetime. -/
def Datetime.isoformat (t : Datetime) : String := String.mk t.isoChars
/-- Consume one expected separator character. -/
def expectChar (c : Char) : List Char → Option (List Char)
  | [] => none
  | x :: xs => if x = c then some xs else none
/-- datetime.fromisoformat restricted to the canonical grammar that
isoformat emits: a date, the T separator, a time, and an optional
6-digit fractional-second field. -/
def Datetime.parseIso (cs : List Char) : Option Datetime :=
  match readBase 10 decDigitVal 4 0 cs with
  | none => none
  | some (y, cs) =>
    match expectChar '-' cs with
    | none => none
    | some cs =>
      match readBase 10 decDigitVal 2 0 cs with
      | none => none
      | some (mo, cs) =>
        match expectChar '-' cs with
        | none => none
        | some cs =>
          match readBase 10 decDigitVal 2 0 cs with
          | none => none
          | some (d, cs) =>
            match expectChar 'T' cs with
            | none => none
            | some cs =>
              match readBase 10 decDigitVal 2 0 cs with
              | none => none
              | some (h, cs) =>
                match expectChar ':' cs with
                | none => none
                | some cs =>
                  match readBase 10 decDigitVal 2 0 cs with
                  | none => none
                  | some (mi, cs) =>
                    match expectChar ':' cs with
                    | none => none
                    | some cs =>
                      match readBase 10 decDigitVal 2 0 cs with
                      | none => none
                      | some (s, cs) =>
                        match cs with
                        | [] => some ⟨y, mo, d, h, mi, s, 0⟩
                        | '.' :: cs =>
                          match readBase 10 decDigitVal 6 0 cs with
                          | some (us, []) => some ⟨y, mo, d, h, mi, s, us⟩
                          | _ => none
                        | _ => none
/-! ## UUID text form

str on a uuid.UUID value renders the 128-bit integer as 32 lowercase hex
digits and inserts dashes after digit positions 8, 12, 16 and 20 (the
slicing in uuid.UUID.__str__).  The UUID constructor applied to such a
string removes the dashes, checks that 32 hex digits remain, and parses
them with int(s, 16). -/
/-- The canonical 8-4-4-4-12 dashed character form of a 128-bit value. -/
def uuidChars (n : Nat) : List Char :=
  let s := padBase 16 hexDigitChar 32 n
  s.take 8 ++ '-' :: ((s.drop 8).take 4 ++ '-' :: ((s.drop 12).take 4 ++ '-' ::
    ((s.drop 16).take 4 ++ '-' :: s.drop 20)))
/-- str applied to a UUID. -/
def uuidStr (n : Nat) : String := String.mk (uuidChars n)
/-- The UUID constructor applied to a hex string: strip dashes, require 32
hex digits, parse as an integer. -/
def uuidFromChars (cs : List Char) : Option Nat :=
  let hex := cs.filter (fun c => c ≠ '-')
  match readBase 16 hexDigitVal 32 0 hex with
  | some (n, []) => some n
  | _ => none

/-! ## Python values and exceptions

PyValue models the dynamically typed values that appear in event fields
and on the wire: strings, integers, UUID objects, datetime objects, and
the free-form dictionaries used for the data and metadata payloads (the
payloads this repository sends are flat string dictionaries, and the code
under verification only passes them through, so a flat dictionary model
is sufficient).  PyErr models the exceptions the embedded code raises. -/

inductive PyValue where
  | str : String → PyValue
  | int : Int → PyValue
  | uuid : Nat → PyValue
  | dt : Datetime → PyValue
  | dict : List (String × String) → PyValue
deriving DecidableEq

inductive PyErr where
  | valueError : String → PyErr
  | typeError : String → PyErr
deriving DecidableEq

/-- A decoded JSON message: the dictionary form events are serialized to. -/
abbrev Wire := List (String × PyValue)

/-! ## DomainEvent (src/shared/events.py)

The typed view of the base dataclass: a freshly constructed event holds a
UUID in event_id and a datetime in occurred_on.  to_dict and from_dict
follow the source field by field; from_dict checks the value shapes that
the Python code assumes implicitly (a missing key or a wrong shape is a
raised exception there, modelled as none here). -/

structure DomainEvent where
  event_id : Nat
  event_type : String
  aggregate_id : String
  aggregate_type : String
  data : PyValue
  occurred_on : Datetime
  version : Int
  metadata : PyValue
deriving DecidableEq

/-- DomainEvent.to_dict: str(event_id), occurred_on.isoformat(), all other
fields passed through. -/
def DomainEvent.to_dict (e : DomainEvent) : Wire :=
  [("event_id", .str (uuidStr e.event_id)),
   ("event_type", .str e.event_type),
   ("aggregate_id", .str e.aggregate_id),
   ("aggregate_type", .str e.aggregate_type),
   ("data", e.data),
   ("occurred_on", .str e.occurred_on.isoformat),
   ("version", .int e.version),
   ("metadata", e.metadata)]

/-- DomainEvent.from_dict: UUID(data["event_id"]),
datetime.fromisoformat(data["occurred_on"]), data.get("metadata", {}),
every other field read directly. -/
def DomainEvent.from_dict (w : Wire) : Option DomainEvent :=
  match w.lookup "event_id", w.lookup "event_type", w.lookup "aggregate_id",
      w.lookup "aggregate_type", w.lookup "data", w.lookup "occurred_on",
      w.lookup "version" with
  | some (.str eid), some (.str et), some (.str aid), some (.str aty),
    some payload, some (.str occ), some (.int v) =>
    match uuidFromChars eid.data, Datetime.parseIso occ.data with
    | some u, some t =>
      some { event_id := u, event_type := et, aggregate_id := aid,
             aggregate_type := aty, data := payload, occurred_on := t,
             version := v, metadata := (w.lookup "metadata").getD (.dict []) }
    | _, _ => none
  | _, _, _, _, _, _, _ => none

/-! ## Event registry and dynamic construction (src/shared/events.py)

The registry maps each wire tag to the concrete dataclass; each concrete
class differs from the base only in its default for event_type, recorded
here as the second component.  create_event_from_type looks the tag up and
calls the class constructor with the caller-supplied keyword arguments.
The constructor performs no coercion: a field given as a keyword argument
is stored exactly as passed, and each missing field takes its dataclass
default.  DynEvent is the resulting dynamically typed object.  The spec
names the registry-miss failure UnknownEventType; the source realises it
as ValueError("Unknown event type: ..."). -/

structure DynEvent where
  event_id : PyValue
  event_type : PyValue
  aggregate_id : PyValue
  aggregate_type : PyValue
  data : PyValue
  occurred_on : PyValue
  version : PyValue
  metadata : PyValue
deriving DecidableEq

/-- The nondeterministic dataclass defaults, passed explicitly: the uuid4
value for event_id and the datetime.utcnow value for occurred_on. -/
structure EventDefaults where
  fresh_uuid : Nat
  now : Datetime

def eventFieldNames : List String :=
  ["event_id", "event_type", "aggregate_id", "aggregate_type", "data",
   "occurred_on", "version", "metadata"]

/-- The generated dataclass constructor for a concrete event class whose
event_type default is cls_event_type: unknown keyword arguments raise
TypeError, every field takes the keyword argument when given and its
default otherwise. -/
def domainEventInit (cls_event_type : String) (g : EventDefaults)
    (kwargs : Wire) : Except PyErr DynEvent :=
  if kwargs.all (fun kv => kv.1 ∈ eventFieldNames) then
    .ok { event_id := (kwargs.lookup "event_id").getD (.uuid g.fresh_uuid),
          event_type := (kwargs.lookup "event_type").getD (.str cls_event_type),
          aggregate_id := (kwargs.lookup "aggregate_id").getD (.str ""),
          aggregate_type := (kwargs.lookup "aggregate_type").getD (.str ""),
          data := (kwargs.lookup "data").getD (.dict []),
          occurred_on := (kwargs.lookup "occurred_on").getD (.dt g.now),
          version := (kwargs.lookup "version").getD (.int 1),
          metadata := (kwargs.lookup "metadata").getD (.dict []) }
  else .error (.typeError "unexpected keyword argument")

/-- EVENT_REGISTRY: wire tag paired with the event_type default of the
registered class. -/
def EVENT_REGISTRY : List (String × String) :=
  [("user.created", "user.created"),
   ("user.updated", "user.updated"),
   ("user.deleted", "user.deleted"),
   ("user.authenticated", "user.authenticated"),
   ("task.created", "task.created"),
   ("task.updated", "task.updated"),
   ("task.completed", "task.completed"),
   ("task.deleted", "task.deleted"),
   ("notification.sent", "notification.sent"),
   ("notification.failed", "notification.failed"),
   ("system.health_check", "system.health_check"),
   ("system.service_started", "system.service_started")]

/-- create_event_from_type: registry lookup, then the class constructor on
the keyword arguments; raises ValueError("Unknown event type: ...") on a
registry miss. -/
def create_event_from_type (event_type : String) (kwargs : Wire)
    (g : EventDefaults) : Except PyErr DynEvent :=
  match EVENT_REGISTRY.lookup event_type with
  | none => .error (.valueError ("Unknown event type: " ++ event_type))
  | some cls => domainEventInit cls g kwargs

/-! ## Consume loop of KafkaEventBus (src/shared/kafka_client.py)

The per-message body of _consume_messages, with its control flow made
explicit: a falsy message is skipped, a missing or falsy event_type is
skipped, an unregistered event_type is skipped, a failed event
construction is skipped, and otherwise every handler registered for the
event_type runs in registration order, each one wrapped in its own
exception handler.  A handler is modelled by an identifier and the set of
events it raises on; an invocation record captures one handler call and
whether it completed or raised (raising is logged and ignored). -/

structure Handler where
  hid : Nat
  raises : DynEvent → Bool

structure Invocation where
  hid : Nat
  completed : Bool
deriving DecidableEq

/-- event_data.get("event_type") followed by the falsiness check. -/
def extractEventType (event_data : Wire) : Option String :=
  match event_data.lookup "event_type" with
  | some (.str t) => if t = "" then none else some t
  | _ => none

/-- Dispatch one event to a handler list: sequential, in registration
order, one try/except per handler. -/
def runHandlers (hs : List Handler) (e : DynEvent) : List Invocation :=
  hs.map (fun h => { hid := h.hid, completed := !(h.raises e) })

/-- The body of the consume loop for one received message (message.value
is none for an empty message). -/
def processMessage (handlers : List (String × List Handler)) (g : EventDefaults)
    (msg : Option Wire) : List Invocation :=
  match msg with
  | none => []
  | some event_data =>
    match extractEventType event_data with
    | none => []
    | some t =>
      match handlers.lookup t with
      | none => []
      | some hs =>
        match create_event_from_type t event_data g with
        | .error _ => []
        | .ok e => runHandlers hs e

/-- The consume loop over a finite message stream: every message is
processed by the same per-message body, and nothing a handler does stops
the loop. -/
def consumeMessages (handlers : List (String × List Handler)) (g : EventDefaults)
    (msgs : List (Option Wire)) : List (List Invocation) :=
  msgs.map (processMessage handlers g)

/-! ## Topic and group defaults (src/shared/kafka_client.py)

publish computes topic or f"{event.aggregate_type.lower()}.events"; for
subscribe, a missing topic is derived from the event types: the part of
the single event type before the first dot plus ".events" when exactly
one event type is given, and "all.events" otherwise; a missing group_id
defaults to f"{topic}-consumer-group".  Python treats None and the empty
string alike in these checks. -/

/-- Python "x or default" / "if not x" on an optional string argument:
None and the empty string both select the default. -/
def pyOrDefault (o : Option String) (d : String) : String :=
  match o with
  | none => d
  | some s => if s = "" then d else s

/-- str.lower on the ASCII aggregate-type names used here: lowercase each
character. -/
def pyLower (s : String) : String := String.mk (s.data.map Char.toLower)

/-- event_type.split(".")[0]: the part of the string before the first
dot. -/
def aggregatePart (et : String) : String :=
  String.mk (et.data.takeWhile (fun c => c ≠ '.'))

/-- The topic publish writes to. -/
def publishTopic (aggregate_type : String) (topic : Option String) : String :=
  pyOrDefault topic (pyLower aggregate_type ++ ".events")

/-- The topic subscribe derives from the event types when none is given:
event_types[0].split(".")[0] + ".events" for a single event type,
"all.events" otherwise. -/
def deriveSubscribeTopic (event_types : List String) : String :=
  match event_types with
  | [et] => aggregatePart et ++ ".events"
  | _ => "all.events"

/-- The topic subscribe consumes from. -/
def subscribeTopic (event_types : List String) (topic : Option String) : String :=
  pyOrDefault topic (deriveSubscribeTopic event_types)

/-- The consumer group id subscribe uses. -/
def subscribeGroupId (topic : String) (group_id : Option String) : String :=
  pyOrDefault group_id (topic ++ "-consumer-group")

/-! ## Bus subscription state (src/shared/kafka_client.py)

The parts of a running KafkaEventBus that subscribe mutates: the topic
keys of self.consumers (in creation order), one entry per background
consume task in self._consumer_tasks (labelled with the topic the task
consumes), and the event_type to handler-list registration map.  Handlers
are identified by a registration id.  subscribeStep is the successful
subscribe call: register the handler under every event type, then create
a consumer and a consume task only if the topic has no consumer yet. -/

structure BusState where
  consumers : List String
  tasks : List String
  handlers : List (String × List Nat)
deriving DecidableEq

/-- Register one handler id under one event type, preserving dictionary
insertion order: append to the existing list, or add a new key at the
end. -/
def addHandler (hs : List (String × List Nat)) (et : String) (h : Nat) :
    List (String × List Nat) :=
  match hs with
  | [] => [(et, [h])]
  | (k, l) :: rest =>
    if k = et then (k, l ++ [h]) :: rest else (k, l) :: addHandler rest et h

/-- Register one handler id under every subscribed event type, in order. -/
def registerAll (hs : List (String × List Nat)) (event_types : List String)
    (h : Nat) : List (String × List Nat) :=
  event_types.foldl (fun acc et => addHandler acc et h) hs

/-- One successful subscribe call on a running bus. -/
def subscribeStep (s : BusState) (event_types : List String) (h : Nat)
    (topic : Option String) : BusState :=
  let t := subscribeTopic event_types topic
  let hs := registerAll s.handlers event_types h
  if t ∈ s.consumers then { s with handlers := hs }
  else { consumers := s.consumers ++ [t], tasks := s.tasks ++ [t], handlers := hs }

/-- Bus states reachable from a freshly started bus by subscribe calls. -/
inductive BusReachable : BusState → Prop where
  | start : BusReachable ⟨[], [], []⟩
  | subscribe (s : BusState) (event_types : List String) (h : Nat)
      (topic : Option String) : BusReachable s →
      BusReachable (subscribeStep s event_types h topic)

/-! ## Notification entity (src/services/notification/domain/entities.py)

The dataclass with its mutating methods as state-passing functions; each
method receives the datetime.utcnow value it reads as an explicit
argument.  reset_for_retry returns the post-state together with the
raised exception if any: on a non-retryable notification it raises
ValueError (the InvalidStateError of the spec) and performs no mutation. -/

inductive NotificationType where
  | email
  | sms
  | push
  | in_app
deriving DecidableEq

inductive NotificationStatus where
  | pending
  | sent
  | failed
  | delivered
deriving DecidableEq

structure Notification where
  id : Nat
  user_id : Option Nat
  type : NotificationType
  title : String
  message : String
  status : NotificationStatus
  recipient : String
  metadata : List (String × String)
  sent_at : Option Datetime
  delivered_at : Option Datetime
  error_message : Option String
  retry_count : Nat
  max_retries : Nat
  created_at : Datetime
  updated_at : Datetime
deriving DecidableEq

/-- Notification.create: a fresh PENDING notification with the dataclass
defaults for every field the factory does not set. -/
def Notification.create (id : Nat) (user_id : Option Nat)
    (type : NotificationType) (title message recipient : String)
    (metadata : List (String × String)) (now : Datetime) : Notification :=
  { id := id, user_id := user_id, type := type, title := title,
    message := message, status := .pending, recipient := recipient,
    metadata := metadata, sent_at := none, delivered_at := none,
    error_message := none, retry_count := 0, max_retries := 3,
    created_at := now, updated_at := now }

def Notification.mark_sent (now : Datetime) (n : Notification) : Notification :=
  { n with status := .sent, sent_at := some now, updated_at := now }

def Notification.mark_delivered (now : Datetime) (n : Notification) : Notification :=
  { n with status := .delivered, delivered_at := some now, updated_at := now }

def Notification.mark_failed (error_message : String) (now : Datetime)
    (n : Notification) : Notification :=
  { n with status := .failed, error_message := some error_message,
           updated_at := now }

def Notification.increment_retry (now : Datetime) (n : Notification) : Notification :=
  { n with retry_count := n.retry_count + 1, updated_at := now }

def Notification.can_retry (n : Notification) : Prop :=
  n.status = .failed ∧ n.retry_count < n.max_retries

instance (n : Notification) : Decidable n.can_retry := by
  unfold Notification.can_retry
  infer_instance

/-- reset_for_retry: post-state and raised exception.  The guard branch
mutates; the other branch raises and leaves the entity untouched. -/
def Notification.reset_for_retry (now : Datetime) (n : Notification) :
    Notification × Option PyErr :=
  if n.can_retry then
    ({ n with status := .pending, error_message := none, updated_at := now }, none)
  else
    (n, some (.valueError
      "Cannot retry notification - max retries exceeded or not failed"))

/-! ## Notification entity reachability

The entity operations as an alphabet, to quantify over operation
sequences.  applyOp takes the post-state of the operation (for
reset_for_retry, the entity after the call whether it raised or not). -/

inductive NOp where
  | sent
  | delivered
  | failed (error_message : String)
  | retry_inc
  | reset
deriving DecidableEq

def applyOp (op : NOp) (now : Datetime) (n : Notification) : Notification :=
  match op with
  | .sent => n.mark_sent now
  | .delivered => n.mark_delivered now
  | .failed msg => n.mark_failed msg now
  | .retry_inc => n.increment_retry now
  | .reset => (n.reset_for_retry now).1

/-- States reachable from a freshly created notification by any sequence
of entity operations. -/
inductive NReach : Notification → Prop where
  | created (id : Nat) (user_id : Option Nat) (type : NotificationType)
      (title message recipient : String) (metadata : List (String × String))
      (now : Datetime) :
      NReach (Notification.create id user_id type title message recipient metadata now)
  | step (n : Notification) (op : NOp) (now : Datetime) :
      NReach n → NReach (applyOp op now n)

/-- States reachable when increment_retry is only ever invoked on a
notification that is not PENDING. -/
inductive NReachG : Notification → Prop where
  | created (id : Nat) (user_id : Option Nat) (type : NotificationType)
      (title message recipient : String) (metadata : List (String × String))
      (now : Datetime) :
      NReachG (Notification.create id user_id type title message recipient metadata now)
  | step (n : Notification) (op : NOp) (now : Datetime) :
      NReachG n → (op = .retry_inc → n.status ≠ .pending) →
      NReachG (applyOp op now n)

/-! ## Notification service (src/services/notification/domain/services.py)

The repository is a finite map from notification id to notification
(save is the upsert the SQLAlchemy implementation performs, keyed by id).
Delivery by the four simulated strategy methods is a collaborator effect:
the oracle returns none on success and the exception text str(e) when the
strategy raises; the try block of send_notification catches exactly
that. -/

abbrev Repo := List (Nat × Notification)

/-- repository.save: replace the entry keyed by the entity id, or insert
it. -/
def repoSave : Repo → Notification → Repo
  | [], n => [(n.id, n)]
  | (k, m) :: rest, n =>
    if k = n.id then (k, n) :: rest else (k, m) :: repoSave rest n

/-- A repository is well formed when every entry is keyed by the id of the
notification it stores. -/
def Repo.WF (r : Repo) : Prop := ∀ p ∈ r, p.2.id = p.1

/-- An oracle for the delivery collaborators: the exception text raised by
the strategy for this notification type, or none on success. -/
abbrev DeliveryOracle := NotificationType → Notification → Option String

/-- send_notification: look the notification up, dispatch on its type to
one delivery strategy, then mark_sent and save on success or
mark_failed(str(e)) and save on exception.  Returns (success flag,
strategy dispatched to, repository after). -/
def send_notification (deliver : DeliveryOracle) (now : Datetime) (r : Repo)
    (nid : Nat) : Bool × Option NotificationType × Repo :=
  match r.lookup nid with
  | none => (false, none, r)
  | some n =>
    match deliver n.type n with
    | none => (true, some n.type, repoSave r (n.mark_sent now))
    | some e => (false, some n.type, repoSave r (n.mark_failed e now))

/-- retry_failed_notification: look up, refuse unless can_retry, reset and
save, then re-invoke send_notification. -/
def retry_failed_notification (deliver : DeliveryOracle) (now_reset now_send : Datetime)
    (r : Repo) (nid : Nat) : Bool × Repo :=
  match r.lookup nid with
  | none => (false, r)
  | some n =>
    if n.can_retry then
      let r1 := repoSave r (n.reset_for_retry now_reset).1
      let out := send_notification deliver now_send r1 nid
      (out.1, out.2.2)
    else (false, r)

/-- create_notification: build a fresh entity (the repository assigns no
id of its own; the dataclass default uuid4 is passed explicitly) and save
it. -/
def create_notification (fresh_id : Nat) (user_id : Option Nat)
    (type : NotificationType) (title message recipient : String)
    (metadata : List (String × String)) (now : Datetime) (r : Repo) : Repo :=
  repoSave r (Notification.create fresh_id user_id type title message recipient metadata now)

/-- k failed send/retry cycles through retry_failed_notification. -/
def iterateRetry (deliver : DeliveryOracle) (now_reset now_send : Datetime)
    (nid : Nat) : Nat → Repo → Repo
  | 0, r => r
  | k + 1, r => iterateRetry deliver now_reset now_send nid k
      (retry_failed_notification deliver now_reset now_send r nid).2

/-! ## Lemmas and theorems -/

theorem padBase_length (b : Nat) (pr : Nat → Char) (w n : Nat) :
    (padBase b pr w n).length = w := by
  induction w generalizing n with
  | zero => rfl
  | succ w ih => simp [padBase, ih]

/-- Every character of a fixed-width rendering of an in-range value is the
rendering of an in-range digit. -/

theorem padBase_mem (b : Nat) (pr : Nat → Char) (w n : Nat) (hb : 0 < b)
    (hn : n < b ^ w) : ∀ c ∈ padBase b pr w n, ∃ d, d < b ∧ c = pr d := by
  induction w generalizing n with
  | zero => simp [padBase]
  | succ w ih =>
    intro c hc
    have hpow : 0 < b ^ w := Nat.pos_pow_of_pos w hb
    simp only [padBase, List.mem_cons] at hc
    rcases hc with hc | hc
    · exact ⟨n / b ^ w, Nat.div_lt_of_lt_mul (by rw [pow_succ] at hn; omega), hc⟩
    · exact ih (n % b ^ w) (Nat.mod_lt _ hpow) c hc

/-- Parsing inverts printing: reading w digits off the rendering of an
in-range value followed by any suffix recovers the value and the suffix. -/

theorem readBase_padBase (b : Nat) (pr : Nat → Char) (pv : Char → Option Nat)
    (hcodec : ∀ d, d < b → pv (pr d) = some d) :
    ∀ (w n acc : Nat) (rest : List Char), n < b ^ w →
      readBase b pv w acc (padBase b pr w n ++ rest) = some (acc * b ^ w + n, rest) := by
  intro w
  induction w with
  | zero =>
    intro n acc rest hn
    rw [pow_zero] at hn
    have hn0 : n = 0 := by omega
    subst hn0
    simp [padBase, readBase]
  | succ w ih =>
    intro n acc rest hn
    have hb : 0 < b := by
      by_contra hb
      have : b = 0 := by omega
      subst this
      simp at hn
    have hpow : 0 < b ^ w := Nat.pos_pow_of_pos w hb
    have hdig : n / b ^ w < b := Nat.div_lt_of_lt_mul (by rw [pow_succ] at hn; omega)
    simp only [padBase, List.cons_append, readBase, hcodec _ hdig, List.append_eq]
    rw [ih (n % b ^ w) (b * acc + n / b ^ w) rest (Nat.mod_lt _ hpow)]
    congr 2
    have hdm : b ^ w * (n / b ^ w) + n % b ^ w = n := Nat.div_add_mod n (b ^ w)
    have : (b * acc + n / b ^ w) * b ^ w + n % b ^ w
        = acc * (b ^ w * b) + (b ^ w * (n / b ^ w) + n % b ^ w) := by ring
    rw [this, hdm, ← pow_succ]

theorem decDigit_codec : ∀ d, d < 10 → decDigitVal (decDigitChar d) = some d := by decide

theorem hexDigit_codec : ∀ d, d < 16 → hexDigitVal (hexDigitChar d) = some d := by decide

theorem hexDigitChar_ne_dash : ∀ d, d < 16 → hexDigitChar d ≠ '-' := by decide

theorem expectChar_cons_self (c : Char) (cs : List Char) :
    expectChar c (c :: cs) = some cs := by simp [expectChar]

/-- Parsing an isoformat rendering of a valid datetime recovers it exactly,
at full microsecond precision. -/

theorem Datetime.parseIso_isoChars (t : Datetime) (h : t.valid) :
    Datetime.parseIso t.isoChars = some t := by
  obtain ⟨y, mo, d, hr, mi, s, us⟩ := t
  obtain ⟨hy1, hy, hmo1, hmo, hd1, hd, hh, hmi, hs, hus⟩ := h
  dsimp only at hy1 hy hmo1 hmo hd1 hd hh hmi hs hus
  have rd := fun w n hn rest =>
    readBase_padBase 10 decDigitChar decDigitVal decDigit_codec w n 0 rest hn
  have r4 : ∀ rest, readBase 10 decDigitVal 4 0 (padBase 10 decDigitChar 4 y ++ rest)
      = some (y, rest) := fun rest => by simpa using rd 4 y (by omega) rest
  have rmo : ∀ rest, readBase 10 decDigitVal 2 0 (padBase 10 decDigitChar 2 mo ++ rest)
      = some (mo, rest) := fun rest => by simpa using rd 2 mo (by omega) rest
  have rdy : ∀ rest, readBase 10 decDigitVal 2 0 (padBase 10 decDigitChar 2 d ++ rest)
      = some (d, rest) := fun rest => by simpa using rd 2 d (by omega) rest
  have rhr : ∀ rest, readBase 10 decDigitVal 2 0 (padBase 10 decDigitChar 2 hr ++ rest)
      = some (hr, rest) := fun rest => by simpa using rd 2 hr (by omega) rest
  have rmi : ∀ rest, readBase 10 decDigitVal 2 0 (padBase 10 decDigitChar 2 mi ++ rest)
      = some (mi, rest) := fun rest => by simpa using rd 2 mi (by omega) rest
  have rs : ∀ rest, readBase 10 decDigitVal 2 0 (padBase 10 decDigitChar 2 s ++ rest)
      = some (s, rest) := fun rest => by simpa using rd 2 s (by omega) rest
  have r6 : ∀ rest, readBase 10 decDigitVal 6 0 (padBase 10 decDigitChar 6 us ++ rest)
      = some (us, rest) := fun rest => by simpa using rd 6 us (by omega) rest
  have r6nil : readBase 10 decDigitVal 6 0 (padBase 10 decDigitChar 6 us)
      = some (us, []) := by simpa using r6 []
  by_cases hz : us = 0
  · subst hz
    simp only [Datetime.parseIso, Datetime.isoChars, if_pos rfl, if_true, r4, rmo, rdy,
      rhr, rmi, rs, expectChar_cons_self]
  · simp only [Datetime.parseIso, Datetime.isoChars, if_neg hz, r4, rmo, rdy, rhr, rmi,
      rs, r6nil, expectChar_cons_self]

theorem filter_ne_dash_padHex (w n : Nat) (hn : n < 16 ^ w) :
    (padBase 16 hexDigitChar w n).filter (fun c => c ≠ '-')
      = padBase 16 hexDigitChar w n := by
  refine List.filter_eq_self.mpr ?_
  intro c hc
  obtain ⟨d, hd, rfl⟩ := padBase_mem 16 hexDigitChar w n (by omega) hn c hc
  simpa using hexDigitChar_ne_dash d hd

/-- Reassembling the four take/drop slices of the hex digit list recovers
the whole list. -/

theorem uuid_slices_append (s : List Char) :
    s.take 8 ++ ((s.drop 8).take 4 ++ ((s.drop 12).take 4 ++
      ((s.drop 16).take 4 ++ s.drop 20))) = s := by
  have h20 : (s.drop 16).take 4 ++ s.drop 20 = s.drop 16 := by
    have : s.drop 20 = (s.drop 16).drop 4 := by
      rw [List.drop_drop]
    rw [this, List.take_append_drop]
  have h16 : (s.drop 12).take 4 ++ s.drop 16 = s.drop 12 := by
    have : s.drop 16 = (s.drop 12).drop 4 := by
      rw [List.drop_drop]
    rw [this, List.take_append_drop]
  have h12 : (s.drop 8).take 4 ++ s.drop 12 = s.drop 8 := by
    have : s.drop 12 = (s.drop 8).drop 4 := by
      rw [List.drop_drop]
    rw [this, List.take_append_drop]
  rw [h20, h16, h12, List.take_append_drop]

/-- Round trip: the UUID constructor applied to the canonical string form
of a 128-bit value recovers the value exactly. -/

theorem uuidFromChars_uuidChars (n : Nat) (hn : n < 16 ^ 32) :
    uuidFromChars (uuidChars n) = some n := by
  have hsub : ∀ (l : List Char), l ⊆ padBase 16 hexDigitChar 32 n →
      l.filter (fun c => c ≠ '-') = l := by
    intro l hl
    refine List.filter_eq_self.mpr ?_
    intro a ha
    obtain ⟨d, hd, rfl⟩ := padBase_mem 16 hexDigitChar 32 n (by omega) hn a (hl ha)
    simpa using hexDigitChar_ne_dash d hd
  have hdash : ∀ (l : List Char),
      ('-' :: l).filter (fun c => c ≠ '-') = l.filter (fun c => c ≠ '-') := by
    intro l
    simp [List.filter_cons]
  have h1 := hsub _ (List.take_subset 8 (padBase 16 hexDigitChar 32 n))
  have h2 := hsub _ (List.Subset.trans
    (List.take_subset 4 ((padBase 16 hexDigitChar 32 n).drop 8))
    (List.drop_subset 8 (padBase 16 hexDigitChar 32 n)))
  have h3 := hsub _ (List.Subset.trans
    (List.take_subset 4 ((padBase 16 hexDigitChar 32 n).drop 12))
    (List.drop_subset 12 (padBase 16 hexDigitChar 32 n)))
  have h4 := hsub _ (List.Subset.trans
    (List.take_subset 4 ((padBase 16 hexDigitChar 32 n).drop 16))
    (List.drop_subset 16 (padBase 16 hexDigitChar 32 n)))
  have h5 := hsub _ (List.drop_subset 20 (padBase 16 hexDigitChar 32 n))
  have hfil : (uuidChars n).filter (fun c => c ≠ '-') = padBase 16 hexDigitChar 32 n := by
    unfold uuidChars
    simp only [List.filter_append, hdash, h1, h2, h3, h4, h5]
    exact uuid_slices_append _
  unfold uuidFromChars
  rw [hfil]
  have hread := readBase_padBase 16 hexDigitChar hexDigitVal hexDigit_codec 32 n 0 [] hn
  rw [List.append_nil] at hread
  simp only [Nat.zero_mul, Nat.zero_add] at hread
  simp only [hread]

/-- Membership extracted from a successful association-list lookup. -/
theorem mem_of_lookup_eq_some {α β : Type} [BEq α] [LawfulBEq α]
    {l : List (α × β)} {k : α} {b : β} (h : l.lookup k = some b) : (k, b) ∈ l := by
  obtain ⟨l₁, l₂, hsplit, _⟩ := List.lookup_eq_some_iff.mp h
  rw [hsplit]
  simp

/-- Shared round-trip fact: from_dict applied to to_dict output restores
every field, with event_id and occurred_on recovered exactly from their
serialized string forms. -/
theorem from_dict_to_dict (e : DomainEvent) (h1 : e.event_id < 16 ^ 32)
    (h2 : e.occurred_on.valid) : DomainEvent.from_dict e.to_dict = some e := by
  have hu : uuidFromChars (uuidStr e.event_id).data = some e.event_id :=
    uuidFromChars_uuidChars e.event_id h1
  have ht : Datetime.parseIso (e.occurred_on.isoformat).data = some e.occurred_on :=
    Datetime.parseIso_isoChars e.occurred_on h2
  simp [DomainEvent.from_dict, DomainEvent.to_dict, List.lookup, hu, ht]

/-- Claim C2: for every DomainEvent e, from_dict(to_dict(e)) reproduces e
field for field — event_id, event_type, aggregate_id, aggregate_type,
data, occurred_on, version and metadata — with event_id and occurred_on
preserved exactly at the serialized string/ISO-8601 precision.  The
hypotheses are the representation invariants of the two library types: a
UUID is a 128-bit value and a datetime lies in the ranges the datetime
constructor enforces. -/
theorem serializer_roundtrip (e : DomainEvent) (h1 : e.event_id < 16 ^ 32)
    (h2 : e.occurred_on.valid) : DomainEvent.from_dict e.to_dict = some e :=
  from_dict_to_dict e h1 h2

theorem serializer_roundtrip_witness :
    (1311768467463790320 : Nat) < 16 ^ 32 ∧
    (⟨2024, 5, 17, 12, 30, 45, 123456⟩ : Datetime).valid ∧
    DomainEvent.from_dict (DomainEvent.to_dict
      { event_id := 1311768467463790320, event_type := "user.created",
        aggregate_id := "42", aggregate_type := "User",
        data := .dict [("email", "a@b.com"), ("username", "alice")],
        occurred_on := ⟨2024, 5, 17, 12, 30, 45, 123456⟩,
        version := 1, metadata := .dict [] })
      = some { event_id := 1311768467463790320, event_type := "user.created",
               aggregate_id := "42", aggregate_type := "User",
               data := .dict [("email", "a@b.com"), ("username", "alice")],
               occurred_on := ⟨2024, 5, 17, 12, 30, 45, 123456⟩,
               version := 1, metadata := .dict [] } :=
  ⟨by norm_num, by decide,
    serializer_roundtrip _ (by norm_num) (by decide)⟩

/-- Every registered class carries the registry key as its event_type
default. -/
theorem registry_defaults_match : ∀ p ∈ EVENT_REGISTRY, p.2 = p.1 := by decide

/-- Claim C3: create_event_from_type(tag, **fields) returns a concrete
event whose event_type equals tag for every registered tag, and fails
with the registry-miss error for every absent tag (the spec calls this
failure UnknownEventType; the source realises it as
ValueError("Unknown event type: ...")).  For the success half the keyword
arguments must be acceptable to the dataclass constructor (only declared
field names) and must not override event_type with a different value —
which is how every call site uses it: either no fields, or the wire
dictionary whose event_type is the tag itself. -/
theorem create_event_from_type_contract (tag : String) (kwargs : Wire)
    (g : EventDefaults) :
    ((EVENT_REGISTRY.lookup tag).isSome →
      kwargs.all (fun kv => kv.1 ∈ eventFieldNames) = true →
      (kwargs.lookup "event_type" = none ∨
        kwargs.lookup "event_type" = some (.str tag)) →
      ∃ e, create_event_from_type tag kwargs g = .ok e ∧
        e.event_type = .str tag) ∧
    (EVENT_REGISTRY.lookup tag = none →
      create_event_from_type tag kwargs g
        = .error (.valueError ("Unknown event type: " ++ tag))) := by
  constructor
  · intro hreg hkeys hev
    obtain ⟨cls, hcls⟩ := Option.isSome_iff_exists.mp hreg
    have hcls_tag : cls = tag := registry_defaults_match _ (mem_of_lookup_eq_some hcls)
    rw [hcls_tag] at hcls
    have hexp : create_event_from_type tag kwargs g = .ok
        { event_id := (kwargs.lookup "event_id").getD (.uuid g.fresh_uuid),
          event_type := (kwargs.lookup "event_type").getD (.str tag),
          aggregate_id := (kwargs.lookup "aggregate_id").getD (.str ""),
          aggregate_type := (kwargs.lookup "aggregate_type").getD (.str ""),
          data := (kwargs.lookup "data").getD (.dict []),
          occurred_on := (kwargs.lookup "occurred_on").getD (.dt g.now),
          version := (kwargs.lookup "version").getD (.int 1),
          metadata := (kwargs.lookup "metadata").getD (.dict []) } := by
      simp [create_event_from_type, hcls, domainEventInit, hkeys]
    refine ⟨_, hexp, ?_⟩
    rcases hev with h | h <;> simp [h]
  · intro hreg
    simp [create_event_from_type, hreg]

theorem create_event_from_type_contract_witness :
    ((EVENT_REGISTRY.lookup "user.created").isSome ∧
      ∃ e, create_event_from_type "user.created" [] ⟨7, ⟨2024, 1, 1, 0, 0, 0, 0⟩⟩ = .ok e ∧
        e.event_type = .str "user.created") ∧
    (EVENT_REGISTRY.lookup "foo.bar" = none ∧
      create_event_from_type "foo.bar" [] ⟨7, ⟨2024, 1, 1, 0, 0, 0, 0⟩⟩
        = .error (.valueError ("Unknown event type: " ++ "foo.bar"))) :=
  ⟨⟨by decide,
    (create_event_from_type_contract "user.created" [] ⟨7, ⟨2024, 1, 1, 0, 0, 0, 0⟩⟩).1
      (by decide) (by decide) (Or.inl rfl)⟩,
   ⟨by decide,
    (create_event_from_type_contract "foo.bar" [] ⟨7, ⟨2024, 1, 1, 0, 0, 0, 0⟩⟩).2
      (by decide)⟩⟩

/-- Claim C10: the consume loop rebuilds the event by passing the raw wire
dictionary as constructor keyword arguments
(create_event_from_type(event_type, **event_data)) instead of calling
from_dict, so the object handed to handlers carries event_id and
occurred_on as the unparsed wire strings, not as the UUID and datetime
values that from_dict would have produced from the same dictionary. -/
theorem consume_reconstruction_raw_wire (e : DomainEvent) (g : EventDefaults)
    (h1 : e.event_id < 16 ^ 32) (h2 : e.occurred_on.valid)
    (hreg : EVENT_REGISTRY.lookup e.event_type = some e.event_type)
    (hne : e.event_type ≠ "") :
    extractEventType e.to_dict = some e.event_type ∧
    ∃ dyn, create_event_from_type e.event_type e.to_dict g = .ok dyn ∧
      dyn.event_id = .str (uuidStr e.event_id) ∧
      dyn.occurred_on = .str e.occurred_on.isoformat ∧
      dyn.event_id ≠ .uuid e.event_id ∧
      dyn.occurred_on ≠ .dt e.occurred_on ∧
      DomainEvent.from_dict e.to_dict = some e := by
  refine ⟨?_, ?_⟩
  · simp [extractEventType, DomainEvent.to_dict, List.lookup, hne]
  · have hkeys : e.to_dict.all (fun kv => kv.1 ∈ eventFieldNames) = true := by
      simp [DomainEvent.to_dict, eventFieldNames]
    have hexp : create_event_from_type e.event_type e.to_dict g = .ok
        { event_id := .str (uuidStr e.event_id),
          event_type := .str e.event_type,
          aggregate_id := .str e.aggregate_id,
          aggregate_type := .str e.aggregate_type,
          data := e.data,
          occurred_on := .str e.occurred_on.isoformat,
          version := .int e.version,
          metadata := e.metadata } := by
      unfold create_event_from_type
      rw [hreg]
      simp [domainEventInit, hkeys, DomainEvent.to_dict, List.lookup, eventFieldNames]
    exact ⟨_, hexp, rfl, rfl, by simp, by simp, from_dict_to_dict e h1 h2⟩

theorem consume_reconstruction_raw_wire_witness :
    extractEventType (DomainEvent.to_dict
      { event_id := 42, event_type := "task.completed", aggregate_id := "7",
        aggregate_type := "Task", data := .dict [],
        occurred_on := ⟨2025, 2, 3, 4, 5, 6, 0⟩, version := 1,
        metadata := .dict [] }) = some "task.completed" ∧
    ∃ dyn, create_event_from_type "task.completed"
        (DomainEvent.to_dict
          { event_id := 42, event_type := "task.completed", aggregate_id := "7",
            aggregate_type := "Task", data := .dict [],
            occurred_on := ⟨2025, 2, 3, 4, 5, 6, 0⟩, version := 1,
            metadata := .dict [] }) ⟨9, ⟨2025, 2, 3, 4, 5, 7, 0⟩⟩ = .ok dyn ∧
      dyn.event_id = .str (uuidStr 42) ∧
      dyn.occurred_on = .str (Datetime.isoformat ⟨2025, 2, 3, 4, 5, 6, 0⟩) ∧
      dyn.event_id ≠ .uuid 42 ∧
      dyn.occurred_on ≠ .dt ⟨2025, 2, 3, 4, 5, 6, 0⟩ ∧
      DomainEvent.from_dict (DomainEvent.to_dict
        { event_id := 42, event_type := "task.completed", aggregate_id := "7",
          aggregate_type := "Task", data := .dict [],
          occurred_on := ⟨2025, 2, 3, 4, 5, 6, 0⟩, version := 1,
          metadata := .dict [] })
        = some { event_id := 42, event_type := "task.completed", aggregate_id := "7",
                 aggregate_type := "Task", data := .dict [],
                 occurred_on := ⟨2025, 2, 3, 4, 5, 6, 0⟩, version := 1,
                 metadata := .dict [] } :=
  consume_reconstruction_raw_wire
    { event_id := 42, event_type := "task.completed", aggregate_id := "7",
      aggregate_type := "Task", data := .dict [],
      occurred_on := ⟨2025, 2, 3, 4, 5, 6, 0⟩, version := 1,
      metadata := .dict [] }
    ⟨9, ⟨2025, 2, 3, 4, 5, 7, 0⟩⟩ (by norm_num) (by decide) (by decide) (by decide)

/-- Claim C1: the consume loop processes every message (a handler
exception never shortens the stream: the output has one entry per
message, each depending only on its own message), and for a message whose
event_type has registered handlers it invokes every registered handler
exactly once, sequentially in registration order, each invocation carrying
its own completed/raised outcome — so a raising handler neither prevents
the remaining handlers of the same message nor the processing of any
later message. -/
theorem consume_isolated_sequential_dispatch
    (handlers : List (String × List Handler)) (g : EventDefaults)
    (msgs : List (Option Wire)) :
    (consumeMessages handlers g msgs).length = msgs.length ∧
    (∀ i data t hs e, msgs.getD i none = some data →
      extractEventType data = some t →
      handlers.lookup t = some hs →
      create_event_from_type t data g = .ok e →
      (consumeMessages handlers g msgs).getD i []
        = hs.map (fun h => { hid := h.hid, completed := !(h.raises e) })) := by
  constructor
  · simp [consumeMessages]
  · intro i data t hs e hmsg hext hlk hcr
    rw [List.getD_eq_getElem?_getD] at hmsg
    have hidx : msgs[i]? = some (some data) := by
      cases hget : msgs[i]? with
      | none => rw [hget] at hmsg; cases hmsg
      | some v => rw [hget] at hmsg; simp at hmsg; rw [hmsg]
    rw [List.getD_eq_getElem?_getD]
    unfold consumeMessages
    rw [List.getElem?_map, hidx]
    simp [processMessage, hext, hlk, hcr, runHandlers]

theorem consume_isolated_sequential_dispatch_witness :
    ([some [("event_type", PyValue.str "user.created")],
      some [("event_type", PyValue.str "user.created")]] :
        List (Option Wire)).getD 0 none
      = some [("event_type", PyValue.str "user.created")] ∧
    extractEventType [("event_type", PyValue.str "user.created")]
      = some "user.created" ∧
    (consumeMessages
      [("user.created", [⟨1, fun _ => true⟩, ⟨2, fun _ => false⟩])]
      ⟨0, ⟨2024, 1, 1, 0, 0, 0, 0⟩⟩
      [some [("event_type", PyValue.str "user.created")],
       some [("event_type", PyValue.str "user.created")]]).length = 2 ∧
    (consumeMessages
      [("user.created", [⟨1, fun _ => true⟩, ⟨2, fun _ => false⟩])]
      ⟨0, ⟨2024, 1, 1, 0, 0, 0, 0⟩⟩
      [some [("event_type", PyValue.str "user.created")],
       some [("event_type", PyValue.str "user.created")]]).getD 0 []
      = [{ hid := 1, completed := false }, { hid := 2, completed := true }] := by
  refine ⟨by decide, by decide, ?_, ?_⟩
  · exact (consume_isolated_sequential_dispatch
      [("user.created", [⟨1, fun _ => true⟩, ⟨2, fun _ => false⟩])]
      ⟨0, ⟨2024, 1, 1, 0, 0, 0, 0⟩⟩
      [some [("event_type", PyValue.str "user.created")],
       some [("event_type", PyValue.str "user.created")]]).1
  · exact (consume_isolated_sequential_dispatch
      [("user.created", [⟨1, fun _ => true⟩, ⟨2, fun _ => false⟩])]
      ⟨0, ⟨2024, 1, 1, 0, 0, 0, 0⟩⟩
      [some [("event_type", PyValue.str "user.created")],
       some [("event_type", PyValue.str "user.created")]]).2 0
      [("event_type", PyValue.str "user.created")] "user.created"
      [⟨1, fun _ => true⟩, ⟨2, fun _ => false⟩]
      { event_id := .uuid 0, event_type := .str "user.created",
        aggregate_id := .str "", aggregate_type := .str "",
        data := .dict [], occurred_on := .dt ⟨2024, 1, 1, 0, 0, 0, 0⟩,
        version := .int 1, metadata := .dict [] }
      rfl rfl rfl (by rfl)

/-- Claim C6 counterexample: a subscribe call for the two event types
user.created and task.completed with the topic omitted targets
"all.events", which is not lower(aggregate_type) + ".events" for either
subscribed event type — the claimed default only describes the
single-event-type case. -/
theorem subscribe_topic_default_counterexample :
    subscribeTopic ["user.created", "task.completed"] none = "all.events" ∧
    "all.events" ≠ pyLower "user" ++ ".events" ∧
    "all.events" ≠ pyLower "task" ++ ".events" ∧
    "all.events" ≠ pyLower "User" ++ ".events" ∧
    "all.events" ≠ pyLower "Task" ++ ".events" := by
  refine ⟨rfl, by decide, by decide, by decide, by decide⟩

/-- Claim C6 (amended): when the topic argument is omitted (None or
empty), publish targets lower(aggregate_type) + ".events"; subscribe
targets the part of the single subscribed event type before the first dot
plus ".events" when exactly one event type is given (no lowercasing is
applied there) and "all.events" when zero or several event types are
given; and an omitted group_id defaults to "{topic}-consumer-group". -/
theorem topic_defaults (aggregate_type et topic : String)
    (event_types : List String) :
    publishTopic aggregate_type none = pyLower aggregate_type ++ ".events" ∧
    publishTopic aggregate_type (some "") = pyLower aggregate_type ++ ".events" ∧
    subscribeTopic [et] none = aggregatePart et ++ ".events" ∧
    (event_types.length ≠ 1 → subscribeTopic event_types none = "all.events") ∧
    subscribeGroupId topic none = topic ++ "-consumer-group" := by
  refine ⟨rfl, rfl, rfl, ?_, rfl⟩
  intro hlen
  cases event_types with
  | nil => rfl
  | cons a tl =>
    cases tl with
    | nil => simp at hlen
    | cons b tl2 => rfl

theorem topic_defaults_witness :
    publishTopic "User" none = pyLower "User" ++ ".events" ∧
    pyLower "User" ++ ".events" = "user.events" ∧
    subscribeTopic ["user.created"] none = aggregatePart "user.created" ++ ".events" ∧
    aggregatePart "user.created" ++ ".events" = "user.events" ∧
    ((["user.created", "task.completed"] : List String).length ≠ 1 ∧
      subscribeTopic ["user.created", "task.completed"] none = "all.events") ∧
    subscribeGroupId "user.events" none = "user.events-consumer-group" := by
  exact ⟨(topic_defaults "User" "user.created" "user.events" []).1, by decide,
    (topic_defaults "User" "user.created" "user.events" []).2.2.1, by decide,
    ⟨(by decide), (topic_defaults "User" "user.created" "user.events"
       ["user.created", "task.completed"]).2.2.2.1 (by decide)⟩,
    (topic_defaults "User" "user.created" "user.events" []).2.2.2.2⟩

/-- Claim C7: on a running bus, every reachable subscription state has
exactly one background consume task and one consumer per distinct
subscribed topic (the task list equals the duplicate-free consumer topic
list), and a subscribe call whose derived topic already has a consumer
changes neither the consumers nor the tasks — it only rewrites the
handler map with the new registrations. -/
theorem one_consumer_task_per_topic (s : BusState) (h : BusReachable s) :
    s.tasks = s.consumers ∧ s.consumers.Nodup ∧
    (∀ event_types hid topic, subscribeTopic event_types topic ∈ s.consumers →
      (subscribeStep s event_types hid topic).consumers = s.consumers ∧
      (subscribeStep s event_types hid topic).tasks = s.tasks ∧
      (subscribeStep s event_types hid topic).handlers
        = registerAll s.handlers event_types hid) := by
  have main : ∀ u : BusState, BusReachable u → u.tasks = u.consumers ∧ u.consumers.Nodup := by
    intro u hu
    induction hu with
    | start => exact ⟨rfl, List.nodup_nil⟩
    | subscribe u ets hid topic hr ih =>
      obtain ⟨ht, hn⟩ := ih
      unfold subscribeStep
      by_cases hmem : subscribeTopic ets topic ∈ u.consumers
      · simp only [hmem, if_true, if_pos]
        exact ⟨ht, hn⟩
      · simp only [hmem, if_false, if_neg, not_false_iff]
        refine ⟨by rw [ht], ?_⟩
        rw [← List.concat_eq_append]
        exact List.Nodup.concat hmem hn
  refine ⟨(main s h).1, (main s h).2, ?_⟩
  intro ets hid topic hmem
  unfold subscribeStep
  simp [hmem]

theorem one_consumer_task_per_topic_witness :
    BusReachable (subscribeStep ⟨[], [], []⟩ ["user.created"] 1 none) ∧
    (subscribeStep ⟨[], [], []⟩ ["user.created"] 1 none).tasks
      = (subscribeStep ⟨[], [], []⟩ ["user.created"] 1 none).consumers ∧
    (subscribeStep ⟨[], [], []⟩ ["user.created"] 1 none).consumers.Nodup ∧
    subscribeTopic ["user.created"] none
      ∈ (subscribeStep ⟨[], [], []⟩ ["user.created"] 1 none).consumers ∧
    (subscribeStep (subscribeStep ⟨[], [], []⟩ ["user.created"] 1 none)
        ["user.created"] 2 none).consumers
      = (subscribeStep ⟨[], [], []⟩ ["user.created"] 1 none).consumers ∧
    (subscribeStep (subscribeStep ⟨[], [], []⟩ ["user.created"] 1 none)
        ["user.created"] 2 none).tasks
      = (subscribeStep ⟨[], [], []⟩ ["user.created"] 1 none).tasks := by
  have hr : BusReachable (subscribeStep ⟨[], [], []⟩ ["user.created"] 1 none) :=
    .subscribe _ _ _ _ .start
  have hmem : subscribeTopic ["user.created"] none
      ∈ (subscribeStep ⟨[], [], []⟩ ["user.created"] 1 none).consumers := by decide
  have hthm := one_consumer_task_per_topic _ hr
  exact ⟨hr, hthm.1, hthm.2.1, hmem,
    (hthm.2.2 ["user.created"] 2 none hmem).1,
    (hthm.2.2 ["user.created"] 2 none hmem).2.1⟩

/-- Claim C4: reset_for_retry succeeds (status becomes PENDING,
error_message is cleared) exactly when can_retry holds, i.e. status is
FAILED and retry_count < max_retries; in every other state it raises (the
ValueError that the spec names InvalidStateError) and leaves every field
of the notification unchanged. -/
theorem reset_for_retry_contract (now : Datetime) (n : Notification) :
    (n.can_retry ↔ n.status = .failed ∧ n.retry_count < n.max_retries) ∧
    (n.can_retry → n.reset_for_retry now
      = ({ n with status := .pending, error_message := none,
                  updated_at := now }, none)) ∧
    (¬ n.can_retry → n.reset_for_retry now
      = (n, some (.valueError
          "Cannot retry notification - max retries exceeded or not failed"))) := by
  refine ⟨Iff.rfl, ?_, ?_⟩
  · intro h
    simp [Notification.reset_for_retry, h]
  · intro h
    simp [Notification.reset_for_retry, h]

theorem reset_for_retry_contract_witness :
    (Notification.mark_failed "boom" ⟨2024, 1, 2, 0, 0, 0, 0⟩
      (Notification.create 1 none .email "t" "m" "r" [] ⟨2024, 1, 1, 0, 0, 0, 0⟩)).can_retry ∧
    Notification.reset_for_retry ⟨2024, 1, 3, 0, 0, 0, 0⟩
      (Notification.mark_failed "boom" ⟨2024, 1, 2, 0, 0, 0, 0⟩
        (Notification.create 1 none .email "t" "m" "r" [] ⟨2024, 1, 1, 0, 0, 0, 0⟩))
      = ({ Notification.mark_failed "boom" ⟨2024, 1, 2, 0, 0, 0, 0⟩
            (Notification.create 1 none .email "t" "m" "r" [] ⟨2024, 1, 1, 0, 0, 0, 0⟩) with
           status := .pending, error_message := none,
           updated_at := (⟨2024, 1, 3, 0, 0, 0, 0⟩ : Datetime) }, none) ∧
    ¬ (Notification.create 2 none .sms "t" "m" "r" [] ⟨2024, 1, 1, 0, 0, 0, 0⟩).can_retry ∧
    Notification.reset_for_retry ⟨2024, 1, 3, 0, 0, 0, 0⟩
      (Notification.create 2 none .sms "t" "m" "r" [] ⟨2024, 1, 1, 0, 0, 0, 0⟩)
      = (Notification.create 2 none .sms "t" "m" "r" [] ⟨2024, 1, 1, 0, 0, 0, 0⟩,
         some (.valueError
           "Cannot retry notification - max retries exceeded or not failed")) :=
  ⟨by decide,
   (reset_for_retry_contract ⟨2024, 1, 3, 0, 0, 0, 0⟩ _).2.1 (by decide),
   by decide,
   (reset_for_retry_contract ⟨2024, 1, 3, 0, 0, 0, 0⟩ _).2.2 (by decide)⟩

/-- Claim C5: send_notification on a stored notification dispatches on the
notification type to one of the four delivery strategies (the oracle is
invoked at exactly the stored type); on success it marks the notification
SENT with sent_at set and persists it; on any exception raised during
delivery it marks it FAILED with the exception text recorded and
retry_count unchanged, persists it, and returns False to the caller
instead of propagating the exception. -/
theorem send_notification_contract (deliver : DeliveryOracle) (now : Datetime)
    (r : Repo) (nid : Nat) (n : Notification) (h : r.lookup nid = some n) :
    (send_notification deliver now r nid).2.1 = some n.type ∧
    (deliver n.type n = none →
      send_notification deliver now r nid
        = (true, some n.type, repoSave r (n.mark_sent now)) ∧
      (n.mark_sent now).status = .sent ∧
      (n.mark_sent now).sent_at = some now) ∧
    (∀ e, deliver n.type n = some e →
      send_notification deliver now r nid
        = (false, some n.type, repoSave r (n.mark_failed e now)) ∧
      (n.mark_failed e now).status = .failed ∧
      (n.mark_failed e now).error_message = some e ∧
      (n.mark_failed e now).retry_count = n.retry_count) := by
  refine ⟨?_, ?_, ?_⟩
  · cases hd : deliver n.type n <;> simp [send_notification, h, hd]
  · intro hd
    refine ⟨by simp [send_notification, h, hd], rfl, rfl⟩
  · intro e hd
    refine ⟨by simp [send_notification, h, hd], rfl, rfl, rfl⟩

theorem send_notification_contract_witness :
    ([(5, Notification.create 5 none .push "t" "m" "r" [] ⟨2024, 1, 1, 0, 0, 0, 0⟩)] :
        Repo).lookup 5
      = some (Notification.create 5 none .push "t" "m" "r" [] ⟨2024, 1, 1, 0, 0, 0, 0⟩) ∧
    send_notification (fun _ _ => none) ⟨2024, 1, 2, 0, 0, 0, 0⟩
      [(5, Notification.create 5 none .push "t" "m" "r" [] ⟨2024, 1, 1, 0, 0, 0, 0⟩)] 5
      = (true, some .push,
         repoSave [(5, Notification.create 5 none .push "t" "m" "r" [] ⟨2024, 1, 1, 0, 0, 0, 0⟩)]
           ((Notification.create 5 none .push "t" "m" "r" [] ⟨2024, 1, 1, 0, 0, 0, 0⟩).mark_sent
             ⟨2024, 1, 2, 0, 0, 0, 0⟩)) ∧
    send_notification (fun _ _ => some "smtp down") ⟨2024, 1, 2, 0, 0, 0, 0⟩
      [(5, Notification.create 5 none .push "t" "m" "r" [] ⟨2024, 1, 1, 0, 0, 0, 0⟩)] 5
      = (false, some .push,
         repoSave [(5, Notification.create 5 none .push "t" "m" "r" [] ⟨2024, 1, 1, 0, 0, 0, 0⟩)]
           ((Notification.create 5 none .push "t" "m" "r" [] ⟨2024, 1, 1, 0, 0, 0, 0⟩).mark_failed
             "smtp down" ⟨2024, 1, 2, 0, 0, 0, 0⟩)) ∧
    ((Notification.create 5 none .push "t" "m" "r" [] ⟨2024, 1, 1, 0, 0, 0, 0⟩).mark_failed
        "smtp down" ⟨2024, 1, 2, 0, 0, 0, 0⟩).retry_count
      = (Notification.create 5 none .push "t" "m" "r" [] ⟨2024, 1, 1, 0, 0, 0, 0⟩).retry_count :=
  ⟨by decide,
   ((send_notification_contract (fun _ _ => none) ⟨2024, 1, 2, 0, 0, 0, 0⟩
       [(5, Notification.create 5 none .push "t" "m" "r" [] ⟨2024, 1, 1, 0, 0, 0, 0⟩)] 5
       (Notification.create 5 none .push "t" "m" "r" [] ⟨2024, 1, 1, 0, 0, 0, 0⟩)
       (by decide)).2.1 rfl).1,
   ((send_notification_contract (fun _ _ => some "smtp down") ⟨2024, 1, 2, 0, 0, 0, 0⟩
       [(5, Notification.create 5 none .push "t" "m" "r" [] ⟨2024, 1, 1, 0, 0, 0, 0⟩)] 5
       (Notification.create 5 none .push "t" "m" "r" [] ⟨2024, 1, 1, 0, 0, 0, 0⟩)
       (by decide)).2.2 "smtp down" rfl).1,
   ((send_notification_contract (fun _ _ => some "smtp down") ⟨2024, 1, 2, 0, 0, 0, 0⟩
       [(5, Notification.create 5 none .push "t" "m" "r" [] ⟨2024, 1, 1, 0, 0, 0, 0⟩)] 5
       (Notification.create 5 none .push "t" "m" "r" [] ⟨2024, 1, 1, 0, 0, 0, 0⟩)
       (by decide)).2.2 "smtp down" rfl).2.2.2⟩

/-- Claim C8 counterexample: four unguarded increment_retry calls on a
freshly created (PENDING) notification produce a reachable state that is
still PENDING with retry_count 4 > max_retries 3 — increment_retry
increments unconditionally, so the claimed invariant fails over the full
entity operation set. -/
theorem pending_retry_budget_counterexample :
    NReach (applyOp .retry_inc ⟨2024, 1, 1, 0, 0, 0, 0⟩
      (applyOp .retry_inc ⟨2024, 1, 1, 0, 0, 0, 0⟩
        (applyOp .retry_inc ⟨2024, 1, 1, 0, 0, 0, 0⟩
          (applyOp .retry_inc ⟨2024, 1, 1, 0, 0, 0, 0⟩
            (Notification.create 0 none .email "" "" "" [] ⟨2024, 1, 1, 0, 0, 0, 0⟩))))) ∧
    (applyOp .retry_inc ⟨2024, 1, 1, 0, 0, 0, 0⟩
      (applyOp .retry_inc ⟨2024, 1, 1, 0, 0, 0, 0⟩
        (applyOp .retry_inc ⟨2024, 1, 1, 0, 0, 0, 0⟩
          (applyOp .retry_inc ⟨2024, 1, 1, 0, 0, 0, 0⟩
            (Notification.create 0 none .email "" "" "" [] ⟨2024, 1, 1, 0, 0, 0, 0⟩))))).status
      = .pending ∧
    (applyOp .retry_inc ⟨2024, 1, 1, 0, 0, 0, 0⟩
      (applyOp .retry_inc ⟨2024, 1, 1, 0, 0, 0, 0⟩
        (applyOp .retry_inc ⟨2024, 1, 1, 0, 0, 0, 0⟩
          (applyOp .retry_inc ⟨2024, 1, 1, 0, 0, 0, 0⟩
            (Notification.create 0 none .email "" "" "" [] ⟨2024, 1, 1, 0, 0, 0, 0⟩))))).max_retries
      < (applyOp .retry_inc ⟨2024, 1, 1, 0, 0, 0, 0⟩
          (applyOp .retry_inc ⟨2024, 1, 1, 0, 0, 0, 0⟩
            (applyOp .retry_inc ⟨2024, 1, 1, 0, 0, 0, 0⟩
              (applyOp .retry_inc ⟨2024, 1, 1, 0, 0, 0, 0⟩
                (Notification.create 0 none .email "" "" "" []
                  ⟨2024, 1, 1, 0, 0, 0, 0⟩))))).retry_count :=
  ⟨.step _ _ _ (.step _ _ _ (.step _ _ _ (.step _ _ _
     (.created 0 none .email "" "" "" [] ⟨2024, 1, 1, 0, 0, 0, 0⟩)))),
   by decide, by decide⟩

/-- Claim C8 (amended): over sequences of mark_sent, mark_delivered,
mark_failed, increment_retry and reset_for_retry from a freshly created
notification, retry_count never exceeds max_retries while status is
PENDING provided increment_retry is only ever invoked while the
notification is not PENDING (the discipline the service layer respects —
it never calls increment_retry at all); unguarded increment_retry calls
violate the invariant. -/
theorem pending_retry_budget_guarded (n : Notification) (h : NReachG n) :
    n.status = .pending → n.retry_count ≤ n.max_retries := by
  induction h with
  | created id user_id type title message recipient metadata now =>
    intro _
    simp [Notification.create]
  | step n op now hr hguard ih =>
    intro hp
    cases op with
    | sent => simp [applyOp, Notification.mark_sent] at hp
    | delivered => simp [applyOp, Notification.mark_delivered] at hp
    | failed msg => simp [applyOp, Notification.mark_failed] at hp
    | retry_inc =>
      exfalso
      exact hguard rfl (by simpa [applyOp, Notification.increment_retry] using hp)
    | reset =>
      by_cases hc : n.can_retry
      · have hlt := hc.2
        simp [applyOp, Notification.reset_for_retry, hc]
        omega
      · have hpost : applyOp .reset now n = n := by
          simp [applyOp, Notification.reset_for_retry, hc]
        rw [hpost] at hp ⊢
        exact ih hp

theorem pending_retry_budget_guarded_witness :
    NReachG (Notification.create 3 none .in_app "t" "m" "r" [] ⟨2024, 1, 1, 0, 0, 0, 0⟩) ∧
    (Notification.create 3 none .in_app "t" "m" "r" [] ⟨2024, 1, 1, 0, 0, 0, 0⟩).status
      = .pending ∧
    (Notification.create 3 none .in_app "t" "m" "r" [] ⟨2024, 1, 1, 0, 0, 0, 0⟩).retry_count
      ≤ (Notification.create 3 none .in_app "t" "m" "r" [] ⟨2024, 1, 1, 0, 0, 0, 0⟩).max_retries :=
  ⟨.created 3 none .in_app "t" "m" "r" [] ⟨2024, 1, 1, 0, 0, 0, 0⟩,
   by decide,
   pending_retry_budget_guarded _
     (.created 3 none .in_app "t" "m" "r" [] ⟨2024, 1, 1, 0, 0, 0, 0⟩) (by decide)⟩

theorem repoSave_lookup_self (r : Repo) (n : Notification) :
    (repoSave r n).lookup n.id = some n := by
  induction r with
  | nil => simp [repoSave]
  | cons p rest ih =>
    obtain ⟨k, m⟩ := p
    by_cases hk : k = n.id
    · subst hk
      simp [repoSave]
    · have hbeq : (n.id == k) = false := by
        simp only [beq_eq_false_iff_ne, ne_eq]
        exact fun hh => hk hh.symm
      simp [repoSave, hk, List.lookup_cons, hbeq, ih]

theorem repoSave_lookup_ne (r : Repo) (n : Notification) (k : Nat)
    (h : k ≠ n.id) : (repoSave r n).lookup k = r.lookup k := by
  have hbeq : (k == n.id) = false := by
    simp only [beq_eq_false_iff_ne, ne_eq]
    exact h
  induction r with
  | nil => simp [repoSave, List.lookup_cons, hbeq]
  | cons p rest ih =>
    obtain ⟨k2, m⟩ := p
    by_cases hk2 : k2 = n.id
    · subst hk2
      simp [repoSave, List.lookup_cons, hbeq]
    · simp [repoSave, hk2, List.lookup_cons, ih]

theorem repoSave_WF (r : Repo) (n : Notification) :
    Repo.WF r → Repo.WF (repoSave r n) := by
  induction r with
  | nil =>
    intro _ p hp
    simp [repoSave] at hp
    simp [hp]
  | cons q rest ih =>
    obtain ⟨k, m⟩ := q
    intro h p hp
    by_cases hk : k = n.id
    · subst hk
      simp only [repoSave, if_pos rfl] at hp
      cases hp with
      | head => simp
      | tail b h2 => exact h p (List.mem_cons_of_mem _ h2)
    · simp only [repoSave, if_neg hk] at hp
      cases hp with
      | head => exact h (k, m) (List.mem_cons_self _ _)
      | tail b h2 => exact ih (fun q hq => h q (List.mem_cons_of_mem _ hq)) p h2

theorem lookup_id_of_WF (r : Repo) (h : Repo.WF r) (k : Nat) (n : Notification)
    (hl : r.lookup k = some n) : n.id = k :=
  h (k, n) (mem_of_lookup_eq_some hl)

theorem reset_for_retry_keeps_id (now : Datetime) (n : Notification) :
    ((n.reset_for_retry now).1).id = n.id := by
  by_cases hc : n.can_retry <;> simp [Notification.reset_for_retry, hc]

theorem reset_for_retry_keeps_retry_count (now : Datetime) (n : Notification) :
    ((n.reset_for_retry now).1).retry_count = n.retry_count := by
  by_cases hc : n.can_retry <;> simp [Notification.reset_for_retry, hc]

theorem reset_for_retry_keeps_max_retries (now : Datetime) (n : Notification) :
    ((n.reset_for_retry now).1).max_retries = n.max_retries := by
  by_cases hc : n.can_retry <;> simp [Notification.reset_for_retry, hc]

/-- send_notification never changes the retry_count (or the id) of any
stored notification: mark_sent and mark_failed both leave it untouched. -/
theorem send_preserves_retry_count (deliver : DeliveryOracle) (now : Datetime)
    (r : Repo) (nid : Nat) (hwf : Repo.WF r) (k : Nat) (m : Notification)
    (hl : r.lookup k = some m) :
    ∃ m', (send_notification deliver now r nid).2.2.lookup k = some m' ∧
      m'.retry_count = m.retry_count ∧ m'.id = m.id := by
  cases hn : r.lookup nid with
  | none =>
    have hrepo : (send_notification deliver now r nid).2.2 = r := by
      simp [send_notification, hn]
    exact ⟨m, by rw [hrepo]; exact hl, rfl, rfl⟩
  | some n =>
    have hid : n.id = nid := lookup_id_of_WF r hwf nid n hn
    cases hd : deliver n.type n with
    | none =>
      have hrepo : (send_notification deliver now r nid).2.2
          = repoSave r (n.mark_sent now) := by
        simp [send_notification, hn, hd]
      by_cases hk : k = nid
      · subst hk
        have hmn : m = n := by
          rw [hl] at hn
          exact (Option.some.injEq _ _).mp hn
      
        have hidk : (n.mark_sent now).id = k := by
          simp [Notification.mark_sent, hid]
        refine ⟨n.mark_sent now, ?_, by simp [hmn, Notification.mark_sent],
          by simp [hmn, Notification.mark_sent]⟩
        rw [hrepo, ← hidk]
        exact repoSave_lookup_self _ _
      · have hne : k ≠ (n.mark_sent now).id := by
          simp only [Notification.mark_sent]
          simpa [hid] using hk
        refine ⟨m, ?_, rfl, rfl⟩
        rw [hrepo, repoSave_lookup_ne _ _ _ hne]
        exact hl
    | some e =>
      have hrepo : (send_notification deliver now r nid).2.2
          = repoSave r (n.mark_failed e now) := by
        simp [send_notification, hn, hd]
      by_cases hk : k = nid
      · subst hk
        have hmn : m = n := by
          rw [hl] at hn
          exact (Option.some.injEq _ _).mp hn
        have hidk : (n.mark_failed e now).id = k := by
          simp [Notification.mark_failed, hid]
        refine ⟨n.mark_failed e now, ?_, by simp [hmn, Notification.mark_failed],
          by simp [hmn, Notification.mark_failed]⟩
        rw [hrepo, ← hidk]
        exact repoSave_lookup_self _ _
      · have hne : k ≠ (n.mark_failed e now).id := by
          simp only [Notification.mark_failed]
          simpa [hid] using hk
        refine ⟨m, ?_, rfl, rfl⟩
        rw [hrepo, repoSave_lookup_ne _ _ _ hne]
        exact hl

/-- retry_failed_notification never changes the retry_count (or the id) of
any stored notification: its reset_for_retry call clears only the status
and error_message, and the send it re-invokes preserves retry_count. -/
theorem retry_preserves_retry_count (deliver : DeliveryOracle)
    (now_reset now_send : Datetime) (r : Repo) (nid : Nat) (hwf : Repo.WF r)
    (k : Nat) (m : Notification) (hl : r.lookup k = some m) :
    ∃ m', (retry_failed_notification deliver now_reset now_send r nid).2.lookup k = some m' ∧
      m'.retry_count = m.retry_count ∧ m'.id = m.id := by
  cases hn : r.lookup nid with
  | none =>
    have hrepo : (retry_failed_notification deliver now_reset now_send r nid).2 = r := by
      simp [retry_failed_notification, hn]
    exact ⟨m, by rw [hrepo]; exact hl, rfl, rfl⟩
  | some n =>
    have hid : n.id = nid := lookup_id_of_WF r hwf nid n hn
    by_cases hc : n.can_retry
    · have hrepo : (retry_failed_notification deliver now_reset now_send r nid).2
          = (send_notification deliver now_send
              (repoSave r (n.reset_for_retry now_reset).1) nid).2.2 := by
        simp [retry_failed_notification, hn, hc]
      have hwf1 : Repo.WF (repoSave r (n.reset_for_retry now_reset).1) :=
        repoSave_WF r _ hwf
      by_cases hk : k = nid
      · subst hk
        have hmn : m = n := by
          rw [hl] at hn
          exact (Option.some.injEq _ _).mp hn
        have hidr : ((n.reset_for_retry now_reset).1).id = k := by
          rw [reset_for_retry_keeps_id, hid]
        have hl1 : (repoSave r (n.reset_for_retry now_reset).1).lookup k
            = some (n.reset_for_retry now_reset).1 := by
          rw [← hidr]
          exact repoSave_lookup_self _ _
        obtain ⟨m', hm', hrc, hmid⟩ := send_preserves_retry_count deliver now_send
          (repoSave r (n.reset_for_retry now_reset).1) k hwf1 k _ hl1
        refine ⟨m', by rw [hrepo]; exact hm', ?_, ?_⟩
        · rw [hrc, reset_for_retry_keeps_retry_count, hmn]
        · rw [hmid, reset_for_retry_keeps_id, hmn]
      · have hne : k ≠ ((n.reset_for_retry now_reset).1).id := by
          rw [reset_for_retry_keeps_id, hid]
          exact hk
        have hl1 : (repoSave r (n.reset_for_retry now_reset).1).lookup k = some m := by
          rw [repoSave_lookup_ne _ _ _ hne]
          exact hl
        obtain ⟨m', hm', hrc, hmid⟩ := send_preserves_retry_count deliver now_send
          (repoSave r (n.reset_for_retry now_reset).1) nid hwf1 k m hl1
        exact ⟨m', by rw [hrepo]; exact hm', hrc, hmid⟩
    · have hrepo : (retry_failed_notification deliver now_reset now_send r nid).2 = r := by
        simp [retry_failed_notification, hn, hc]
      exact ⟨m, by rw [hrepo]; exact hl, rfl, rfl⟩

/-- One failed retry cycle on a FAILED notification with an untouched
retry budget leaves the stored notification FAILED with the same zero
retry_count and the same budget, and preserves repository
well-formedness. -/
theorem retry_cycle_failed (deliver : DeliveryOracle) (now_reset now_send : Datetime)
    (r : Repo) (nid : Nat) (n : Notification) (hwf : Repo.WF r)
    (hl : r.lookup nid = some n) (hst : n.status = .failed)
    (hrc : n.retry_count = 0) (hmr : n.max_retries = 3)
    (hfail : ∀ ty m, (deliver ty m).isSome = true) :
    Repo.WF (retry_failed_notification deliver now_reset now_send r nid).2 ∧
    ∃ n', (retry_failed_notification deliver now_reset now_send r nid).2.lookup nid
        = some n' ∧
      n'.status = .failed ∧ n'.retry_count = 0 ∧ n'.max_retries = 3 := by
  have hid : n.id = nid := lookup_id_of_WF r hwf nid n hl
  have hc : n.can_retry := ⟨hst, by omega⟩
  have hn1 : (n.reset_for_retry now_reset).1
      = { n with status := .pending, error_message := none, updated_at := now_reset } := by
    simp [Notification.reset_for_retry, hc]
  have hidr : ((n.reset_for_retry now_reset).1).id = nid := by
    rw [reset_for_retry_keeps_id, hid]
  have hl1 : (repoSave r (n.reset_for_retry now_reset).1).lookup nid
      = some (n.reset_for_retry now_reset).1 := by
    rw [← hidr]
    exact repoSave_lookup_self _ _
  obtain ⟨e, he⟩ := Option.isSome_iff_exists.mp
    (hfail ((n.reset_for_retry now_reset).1).type (n.reset_for_retry now_reset).1)
  have hrepo : (retry_failed_notification deliver now_reset now_send r nid).2
      = repoSave (repoSave r (n.reset_for_retry now_reset).1)
          (((n.reset_for_retry now_reset).1).mark_failed e now_send) := by
    simp [retry_failed_notification, hl, hc, send_notification, hl1, he]
  have hwf1 : Repo.WF (repoSave r (n.reset_for_retry now_reset).1) :=
    repoSave_WF r _ hwf
  have hwf2 : Repo.WF (repoSave (repoSave r (n.reset_for_retry now_reset).1)
      (((n.reset_for_retry now_reset).1).mark_failed e now_send)) :=
    repoSave_WF _ _ hwf1
  have hid2 : ((((n.reset_for_retry now_reset).1).mark_failed e now_send)).id = nid := by
    simp [Notification.mark_failed, hidr]
  refine ⟨by rw [hrepo]; exact hwf2,
    ((n.reset_for_retry now_reset).1).mark_failed e now_send, ?_, ?_, ?_, ?_⟩
  · rw [hrepo, ← hid2]
    exact repoSave_lookup_self _ _
  · simp [Notification.mark_failed]
  · rw [show (((n.reset_for_retry now_reset).1).mark_failed e now_send).retry_count
        = ((n.reset_for_retry now_reset).1).retry_count from rfl,
      reset_for_retry_keeps_retry_count, hrc]
  · rw [show (((n.reset_for_retry now_reset).1).mark_failed e now_send).max_retries
        = ((n.reset_for_retry now_reset).1).max_retries from rfl,
      reset_for_retry_keeps_max_retries, hmr]

/-- Any number of failed retry cycles leaves the notification FAILED with
retry_count still 0 and the retry budget intact, hence still retriable. -/
theorem retry_unbounded (deliver : DeliveryOracle) (now_reset now_send : Datetime)
    (nid : Nat) (hfail : ∀ ty m, (deliver ty m).isSome = true) :
    ∀ (k : Nat) (r : Repo) (n : Notification), Repo.WF r → r.lookup nid = some n →
      n.status = .failed → n.retry_count = 0 → n.max_retries = 3 →
      ∃ n', (iterateRetry deliver now_reset now_send nid k r).lookup nid = some n' ∧
        n'.status = .failed ∧ n'.retry_count = 0 ∧ n'.max_retries = 3 ∧ n'.can_retry := by
  intro k
  induction k with
  | zero =>
    intro r n hwf hl hst hrc hmr
    exact ⟨n, hl, hst, hrc, hmr, hst, by omega⟩
  | succ k ih =>
    intro r n hwf hl hst hrc hmr
    obtain ⟨hwf', n', hl', hst', hrc', hmr'⟩ :=
      retry_cycle_failed deliver now_reset now_send r nid n hwf hl hst hrc hmr hfail
    exact ih _ n' hwf' hl' hst' hrc' hmr'

/-- Claim C9: no notification service operation ever increments
retry_count — reset_for_retry leaves it unchanged, and send_notification
and retry_failed_notification preserve the retry_count of every stored
notification (increment_retry is defined on the entity but invoked
nowhere in the service layer, so no service path reaches it).
Consequently a FAILED notification created with the default retry_count 0
and max_retries 3 still satisfies can_retry after any number of failed
send/retry cycles: the retry budget is never consumed and the
notification may be retried an unbounded number of times. -/
theorem retry_budget_never_consumed :
    (∀ (now : Datetime) (n : Notification),
      ((n.reset_for_retry now).1).retry_count = n.retry_count) ∧
    (∀ deliver now r nid, Repo.WF r → ∀ k m, r.lookup k = some m →
      ∃ m', (send_notification deliver now r nid).2.2.lookup k = some m' ∧
        m'.retry_count = m.retry_count) ∧
    (∀ deliver now_reset now_send r nid, Repo.WF r → ∀ k m, r.lookup k = some m →
      ∃ m', (retry_failed_notification deliver now_reset now_send r nid).2.lookup k
          = some m' ∧ m'.retry_count = m.retry_count) ∧
    (∀ deliver now_reset now_send nid k r n,
      (∀ ty m, (deliver ty m).isSome = true) →
      Repo.WF r → r.lookup nid = some n → n.status = .failed →
      n.retry_count = 0 → n.max_retries = 3 →
      ∃ n', (iterateRetry deliver now_reset now_send nid k r).lookup nid = some n' ∧
        n'.retry_count = 0 ∧ n'.can_retry) := by
  refine ⟨reset_for_retry_keeps_retry_count, ?_, ?_, ?_⟩
  · intro deliver now r nid hwf k m hl
    obtain ⟨m', hm', hrc, _⟩ := send_preserves_retry_count deliver now r nid hwf k m hl
    exact ⟨m', hm', hrc⟩
  · intro deliver now_reset now_send r nid hwf k m hl
    obtain ⟨m', hm', hrc, _⟩ :=
      retry_preserves_retry_count deliver now_reset now_send r nid hwf k m hl
    exact ⟨m', hm', hrc⟩
  · intro deliver now_reset now_send nid k r n hfail hwf hl hst hrc hmr
    obtain ⟨n', hl', _, hrc', _, hcr⟩ :=
      retry_unbounded deliver now_reset now_send nid hfail k r n hwf hl hst hrc hmr
    exact ⟨n', hl', hrc', hcr⟩

theorem retry_budget_never_consumed_witness :
    ((Notification.reset_for_retry ⟨2024, 1, 3, 0, 0, 0, 0⟩
        (Notification.mark_failed "boom" ⟨2024, 1, 2, 0, 0, 0, 0⟩
          (Notification.create 1 none .email "t" "m" "r" []
            ⟨2024, 1, 1, 0, 0, 0, 0⟩))).1).retry_count
      = (Notification.mark_failed "boom" ⟨2024, 1, 2, 0, 0, 0, 0⟩
          (Notification.create 1 none .email "t" "m" "r" []
            ⟨2024, 1, 1, 0, 0, 0, 0⟩)).retry_count ∧
    ∃ n', (iterateRetry (fun _ _ => some "boom") ⟨2024, 1, 3, 0, 0, 0, 0⟩
        ⟨2024, 1, 4, 0, 0, 0, 0⟩ 1 2
        [(1, Notification.mark_failed "boom" ⟨2024, 1, 2, 0, 0, 0, 0⟩
          (Notification.create 1 none .email "t" "m" "r" []
            ⟨2024, 1, 1, 0, 0, 0, 0⟩))]).lookup 1 = some n' ∧
      n'.retry_count = 0 ∧ n'.can_retry :=
  ⟨retry_budget_never_consumed.1 ⟨2024, 1, 3, 0, 0, 0, 0⟩ _,
   retry_budget_never_consumed.2.2.2 (fun _ _ => some "boom")
     ⟨2024, 1, 3, 0, 0, 0, 0⟩ ⟨2024, 1, 4, 0, 0, 0, 0⟩ 1 2
     [(1, Notification.mark_failed "boom" ⟨2024, 1, 2, 0, 0, 0, 0⟩
       (Notification.create 1 none .email "t" "m" "r" []
         ⟨2024, 1, 1, 0, 0, 0, 0⟩))]
     (Notification.mark_failed "boom" ⟨2024, 1, 2, 0, 0, 0, 0⟩
       (Notification.create 1 none .email "t" "m" "r" []
         ⟨2024, 1, 1, 0, 0, 0, 0⟩))
     (fun _ _ => rfl) (by unfold Repo.WF; decide) (by decide) (by decide)
     (by decide) (by decide)⟩
